import Mathlib

/-!
Shallow embedding of `src/roblox_install.rs` (and the glue in `src/main.rs`)
from the `roblox-studio` repository.

Modelling decisions, traceable to the Rust source:

* A filesystem path is a list of components (`Path := List String`).
  `PathBuf::push` / `Path::join` with a single component is `pjoin`;
  `Path::parent` is `parent` (drops the last component; `none` for the
  empty path, matching `Path::parent` returning `None` on an empty/root
  path).  `String::parse::<PathBuf>()` is `parsePath`, which splits on
  `/` and drops empty components; crucially, `FromStr for PathBuf` in
  Rust has `Err = Infallible`, so `parsePath` is TOTAL — the
  `Error::EnvironmentVariableError` branch of `locate_from_env`
  (roblox_install.rs lines 275-283) can never be taken.

* `World` packages every ambient input the code reads: the value of the
  `ROBLOX_STUDIO_PATH` environment variable, filesystem predicates, the
  registry value, the per-user directories, and the outputs of the two
  external commands used by the WSL branch.  `std::env::var` returns
  `Result<String, VarError>` where `VarError` is `NotPresent` or
  `NotUnicode`; the code calls `.ok()?`, collapsing BOTH error cases to
  `None`.  We model the variable as `Option (Option String)`:
  `none` = variable unset (`NotPresent`), `some none` = variable set to
  a non-Unicode value (`NotUnicode`), `some (some s)` = set to the
  Unicode string `s`.

* `fs::read_dir` is `World.readDir`, returning `none` when the call
  fails and otherwise the full paths (`entry.path()`) of the children
  whose `DirEntry` results were `Ok` (the code's
  `.filter_map(|entry| entry.ok())`).

* The two `Command` invocations: `uname -r` is modelled by
  `World.unameOutput` (`none` when the command fails or its stdout is
  not UTF-8 — both collapse to `false` in `is_wsl`), and
  `cmd.exe /C echo %USERNAME%` by `World.usernameOutput` (`none` when
  the command fails or its stdout is not UTF-8 — both fall through to
  `PlatformNotSupported` in the non-Windows, non-macOS
  `locate_target_specific`).

* The Rust code compiles exactly one variant of `locate_target_specific`
  and `locate_from_directory` per target via `#[cfg(...)]`.  We embed
  all three variants side by side (`..._windows`, `..._macos`,
  `..._other`) and give one top-level `locate` per variant
  (`locate_windows`, `locate_macos`, `locate_other`), each being
  `locate_from_env().unwrap_or_else(locate_target_specific)`.

* String helpers (`lowerChars`, `containsLower`, `strTrim`) are written
  by structural recursion over the character list so that every
  definition kernel-reduces on concrete inputs; they implement exactly
  `str::to_lowercase` + `str::contains` and `str::trim` as used at
  roblox_install.rs lines 50 and 136.
-/

namespace RobloxInstall

/-- A filesystem path, as its list of components. -/
abbrev Path := List String

/-- `PathBuf::push` / `Path::join` with one component. -/
def pjoin (p : Path) (s : String) : Path := p ++ [s]

/-- `Path::parent`: drops the final component; `none` when there is no
parent (empty path). -/
def parent : Path → Option Path
  | [] => none
  | p => some p.dropLast

/-- Helper for `parsePath`: split a character list at `/`. -/
def splitSlash : List Char → List Char → List String
  | [], acc => [String.mk acc.reverse]
  | c :: rest, acc =>
    if c = '/' then String.mk acc.reverse :: splitSlash rest []
    else splitSlash rest (c :: acc)

/-- `String::parse::<PathBuf>()` — total, because `FromStr for PathBuf`
has `Err = Infallible`.  Components are the non-empty `/`-separated
segments. -/
def parsePath (s : String) : Path :=
  (splitSlash s.toList []).filter (fun c => c ≠ "")

/-- Character-list lowercasing (`str::to_lowercase`). -/
def lowerChars (cs : List Char) : List Char := cs.map Char.toLower

/-- Is `needle` a contiguous leading run of `hay`? -/
def prefChars : List Char → List Char → Bool
  | [], _ => true
  | _ :: _, [] => false
  | a :: as, b :: bs => a = b && prefChars as bs

/-- Is `needle` a contiguous run anywhere in `hay`? (`str::contains`) -/
def subChars (needle : List Char) : List Char → Bool
  | [] => needle.isEmpty
  | b :: bs => prefChars needle (b :: bs) || subChars needle bs

/-- `haystack.to_lowercase().contains(needle)` for an already-lowercase
needle, as in `is_wsl`. -/
def containsLower (needle haystack : String) : Bool :=
  subChars needle.toList (lowerChars haystack.toList)

/-- `str::trim` on the model's character lists. -/
def strTrim (s : String) : String :=
  String.mk (((s.toList.dropWhile Char.isWhitespace).reverse.dropWhile
    Char.isWhitespace).reverse)

/-- The `Error` enum of roblox_install.rs (lines 21-45). -/
inductive Error where
  | documentsDirectoryNotFound
  | malformedRegistry
  | platformNotSupported
  | pluginsDirectoryNotFound
  | registryError
  | environmentVariableError (msg : String)
  | notInstalled
  | wslDetectionError
deriving DecidableEq, Repr

/-- The `RobloxStudio` struct (lines 58-64): the Installation
Descriptor. -/
structure RobloxStudio where
  content : Path
  application : Path
  built_in_plugins : Path
  plugins : Path
  root : Path
deriving DecidableEq, Repr

/-- Every ambient input `locate()` reads: environment variable,
filesystem, registry, user directories, external command outputs. -/
structure World where
  /-- `env::var("ROBLOX_STUDIO_PATH")`: `none` = unset (`NotPresent`),
  `some none` = set but not valid Unicode (`NotUnicode`),
  `some (some s)` = set to the Unicode string `s`. -/
  envVar : Option (Option String)
  /-- `Path::is_dir`. -/
  isDir : Path → Bool
  /-- `Path::is_file`. -/
  isFile : Path → Bool
  /-- `fs::read_dir`: `none` on failure, else the full paths of the
  children whose entries were `Ok`, in enumeration order. -/
  readDir : Path → Option (List Path)
  /-- `dirs::home_dir()`. -/
  homeDir : Option Path
  /-- `dirs::document_dir()`. -/
  documentDir : Option Path
  /-- Registry value `HKCU\Software\Roblox\RobloxStudio\ContentFolder`:
  `none` when `open_subkey` or `get_value` fails (→ `RegistryError`). -/
  registryContentFolder : Option String
  /-- stdout of `uname -r`: `none` when the command fails or its output
  is not UTF-8. -/
  unameOutput : Option String
  /-- stdout of `cmd.exe /C echo %USERNAME%`: `none` when the command
  fails or its output is not UTF-8. -/
  usernameOutput : Option String

/-- `is_wsl` (lines 47-54): the `uname -r` output, lowercased, must
contain `microsoft` or `wsl`; any command/UTF-8 failure yields
`false`. -/
def is_wsl (w : World) : Bool :=
  match w.unameOutput with
  | some out => containsLower "microsoft" out || containsLower "wsl" out
  | none => false

/-- `RobloxStudio::locate_plugins_on_windows` (lines 110-117):
`home_dir()/AppData/Local/Roblox/Plugins`, or
`PluginsDirectoryNotFound`. -/
def locate_plugins_on_windows (w : World) : Except Error Path :=
  match w.homeDir with
  | none => .error .pluginsDirectoryNotFound
  | some home => .ok (home ++ ["AppData", "Local", "Roblox", "Plugins"])

/-- The closure of the `find_map` at lines 174-189: walk the enumerated
children; the first one whose `RobloxStudioBeta.exe` is a file becomes
the descriptor root. -/
def findStudioVersion (w : World) (plugins : Path) :
    List Path → Option RobloxStudio
  | [] => none
  | version :: rest =>
    let application := pjoin version "RobloxStudioBeta.exe"
    if w.isFile application then
      some { content := pjoin version "content"
             application := application
             built_in_plugins := pjoin version "BuiltInPlugins"
             plugins := plugins
             root := version }
    else findStudioVersion w plugins rest

/-- `RobloxStudio::locate_from_windows_directory` (lines 155-195): the
Directory Interpreter shared by the Windows and WSL variants.  Note the
user-plugins lookup happens BEFORE any shape check. -/
def locate_from_windows_directory (w : World) (root : Path) :
    Except Error RobloxStudio :=
  let content_folder_path := pjoin root "content"
  match locate_plugins_on_windows w with
  | .error e => .error e
  | .ok plugins =>
    if w.isDir content_folder_path then
      .ok { content := content_folder_path
            application := pjoin root "RobloxStudioBeta.exe"
            built_in_plugins := pjoin root "BuiltInPlugins"
            plugins := plugins
            root := root }
    else
      let versions := pjoin root "Versions"
      if w.isDir versions then
        match w.readDir versions with
        | none => .error .notInstalled
        | some entries =>
          match findStudioVersion w plugins entries with
          | some studio => .ok studio
          | none => .error .notInstalled
      else .error .notInstalled

/-- `RobloxStudio::locate_target_specific`, Windows variant (lines
80-107): registry lookup, root = parent of the `ContentFolder` value. -/
def locate_target_specific_windows (w : World) : Except Error RobloxStudio :=
  match w.registryContentFolder with
  | none => .error .registryError
  | some contentFolderValue =>
    let content_folder_path := parsePath contentFolderValue
    match parent content_folder_path with
    | none => .error .malformedRegistry
    | some root =>
      match locate_plugins_on_windows w with
      | .error e => .error e
      | .ok plugins =>
        .ok { content := content_folder_path
              application := pjoin root "RobloxStudioBeta.exe"
              built_in_plugins := pjoin root "BuiltInPlugins"
              plugins := plugins
              root := root }

/-- `RobloxStudio::locate_from_directory`, macOS variant (lines
197-213): no filesystem check at all; only the documents directory can
fail. -/
def locate_from_directory_macos (w : World) (root : Path) :
    Except Error RobloxStudio :=
  let contents := pjoin root "Contents"
  let application := pjoin (pjoin contents "MacOS") "RobloxStudio"
  let built_in_plugins := pjoin (pjoin contents "Resources") "BuiltInPlugins"
  match w.documentDir with
  | none => .error .documentsDirectoryNotFound
  | some documents =>
    let plugins := pjoin (pjoin documents "Roblox") "Plugins"
    let content := pjoin (pjoin contents "Resources") "content"
    .ok { content := content
          application := application
          built_in_plugins := built_in_plugins
          plugins := plugins
          root := root }

/-- `RobloxStudio::locate_target_specific`, macOS variant (lines
119-124): fixed bundle path `/Applications/RobloxStudio.app`. -/
def locate_target_specific_macos (w : World) : Except Error RobloxStudio :=
  locate_from_directory_macos w
    (pjoin (parsePath "/Applications") "RobloxStudio.app")

/-- `RobloxStudio::locate_target_specific`, non-Windows non-macOS
variant (lines 126-147): WSL bridge.  Any detection or command failure
falls through to `PlatformNotSupported`. -/
def locate_target_specific_other (w : World) : Except Error RobloxStudio :=
  if is_wsl w then
    match w.usernameOutput with
    | some username =>
      let username := strTrim username
      let root := parsePath "/mnt/c/Users" ++
        [username, "AppData", "Local", "Roblox"]
      locate_from_windows_directory w root
    | none => .error .platformNotSupported
  else .error .platformNotSupported

/-- `RobloxStudio::locate_from_directory`, Windows variant (lines
149-152): defers to the shared interpreter. -/
def locate_from_directory_windows (w : World) (root : Path) :
    Except Error RobloxStudio :=
  locate_from_windows_directory w root

/-- `RobloxStudio::locate_from_directory`, non-Windows non-macOS variant
(lines 215-223). -/
def locate_from_directory_other (w : World) (root : Path) :
    Except Error RobloxStudio :=
  if is_wsl w then locate_from_windows_directory w root
  else .error .platformNotSupported

/-- `RobloxStudio::locate_from_env` (lines 272-286), parameterised by
the platform's `locate_from_directory`.  `env::var(..).ok()?` collapses
`NotPresent` and `NotUnicode` to `None`; a present Unicode value is
parsed (infallibly) and handed to the Directory Interpreter. -/
def locate_from_env (fromDir : Path → Except Error RobloxStudio)
    (w : World) : Option (Except Error RobloxStudio) :=
  match w.envVar with
  | none => none
  | some none => none
  | some (some value) => some (fromDir (parsePath value))

/-- `RobloxStudio::locate` (lines 75-77), Windows target. -/
def locate_windows (w : World) : Except Error RobloxStudio :=
  match locate_from_env (locate_from_directory_windows w) w with
  | some r => r
  | none => locate_target_specific_windows w

/-- `RobloxStudio::locate` (lines 75-77), macOS target. -/
def locate_macos (w : World) : Except Error RobloxStudio :=
  match locate_from_env (locate_from_directory_macos w) w with
  | some r => r
  | none => locate_target_specific_macos w

/-- `RobloxStudio::locate` (lines 75-77), non-Windows non-macOS
target. -/
def locate_other (w : World) : Except Error RobloxStudio :=
  match locate_from_env (locate_from_directory_other w) w with
  | some r => r
  | none => locate_target_specific_other w

/-- Specification-side helper: the first enumerated child that contains
the expected executable (used to state C4). -/
def firstWithExe (w : World) : List Path → Option Path
  | [] => none
  | v :: rest =>
    if w.isFile (pjoin v "RobloxStudioBeta.exe") then some v
    else firstWithExe w rest

end RobloxInstall

namespace RobloxInstall

/-! ## Shared structural lemmas -/

/-- `findStudioVersion` succeeds exactly on the first enumerated child
that contains the executable, and builds the descriptor from that
child. -/
theorem findStudioVersion_eq (w : World) (plugins : Path) (l : List Path) :
    findStudioVersion w plugins l = (firstWithExe w l).map
      (fun v => { content := pjoin v "content"
                  application := pjoin v "RobloxStudioBeta.exe"
                  built_in_plugins := pjoin v "BuiltInPlugins"
                  plugins := plugins
                  root := v }) := by
  induction l with
  | nil => rfl
  | cons v rest ih =>
    unfold findStudioVersion firstWithExe
    cases h : w.isFile (pjoin v "RobloxStudioBeta.exe") <;> simp [h, ih]

/-- Any descriptor produced by the version walk has all installation
paths derived from its own root, and the plugins path passed through. -/
theorem findStudioVersion_shape (w : World) (plugins : Path) (l : List Path)
    (d : RobloxStudio) (h : findStudioVersion w plugins l = some d) :
    d.content = pjoin d.root "content" ∧
    d.application = pjoin d.root "RobloxStudioBeta.exe" ∧
    d.built_in_plugins = pjoin d.root "BuiltInPlugins" ∧
    d.plugins = plugins := by
  induction l with
  | nil => cases h
  | cons v rest ih =>
    simp only [findStudioVersion] at h
    split at h
    · injection h with h
      subst h
      exact ⟨rfl, rfl, rfl, rfl⟩
    · exact ih h

/-- `Path::parent` returning `some` means the path is that parent plus a
final component. -/
theorem parent_eq_some (p q : Path) (h : parent p = some q) :
    ∃ x, p = q ++ [x] := by
  cases p with
  | nil => cases h
  | cons a as =>
    have h' : some (a :: as).dropLast = some q := h
    injection h' with h'
    subst h'
    exact ⟨(a :: as).getLast (by simp),
      (List.dropLast_append_getLast (by simp)).symm⟩

/-- Success shape of the shared Windows/WSL Directory Interpreter: all
installation paths are derived from the descriptor's own root, and the
plugins path comes from the user's home directory. -/
theorem locate_from_windows_directory_ok (w : World) (root : Path)
    (d : RobloxStudio) (h : locate_from_windows_directory w root = .ok d) :
    d.content = pjoin d.root "content" ∧
    d.application = pjoin d.root "RobloxStudioBeta.exe" ∧
    d.built_in_plugins = pjoin d.root "BuiltInPlugins" ∧
    ∃ home, w.homeDir = some home ∧
      d.plugins = home ++ ["AppData", "Local", "Roblox", "Plugins"] := by
  cases hh : w.homeDir with
  | none =>
    simp only [locate_from_windows_directory, locate_plugins_on_windows, hh] at h
    exact Except.noConfusion h
  | some home =>
    simp only [locate_from_windows_directory, locate_plugins_on_windows, hh] at h
    split at h
    · injection h with h
      subst h
      exact ⟨rfl, rfl, rfl, home, rfl, rfl⟩
    · split at h
      · split at h
        · exact Except.noConfusion h
        · split at h
          next studio hfind =>
            injection h with h
            subst h
            have hs := findStudioVersion_shape w _ _ _ hfind
            exact ⟨hs.1, hs.2.1, hs.2.2.1, home, rfl, hs.2.2.2⟩
          next hfind => exact Except.noConfusion h
      · exact Except.noConfusion h

/-- Error classification of the shared Windows/WSL Directory
Interpreter. -/
theorem locate_from_windows_directory_error (w : World) (root : Path)
    (e : Error) (h : locate_from_windows_directory w root = .error e) :
    e = .pluginsDirectoryNotFound ∨ e = .notInstalled := by
  cases hh : w.homeDir with
  | none =>
    simp only [locate_from_windows_directory, locate_plugins_on_windows, hh] at h
    injection h with h
    exact Or.inl h.symm
  | some home =>
    simp only [locate_from_windows_directory, locate_plugins_on_windows, hh] at h
    split at h
    · exact Except.noConfusion h
    · split at h
      · split at h
        · injection h with h
          exact Or.inr h.symm
        · split at h
          · exact Except.noConfusion h
          · injection h with h
            exact Or.inr h.symm
      · injection h with h
        exact Or.inr h.symm

/-- The user-plugins lookup can only fail with
`PluginsDirectoryNotFound`. -/
theorem locate_plugins_on_windows_error (w : World) (e : Error)
    (h : locate_plugins_on_windows w = .error e) :
    e = .pluginsDirectoryNotFound := by
  unfold locate_plugins_on_windows at h
  split at h
  · injection h with h
    exact h.symm
  · exact Except.noConfusion h

/-- Error classification of the Windows registry locator. -/
theorem locate_target_specific_windows_error (w : World) (e : Error)
    (h : locate_target_specific_windows w = .error e) :
    e = .registryError ∨ e = .malformedRegistry ∨
      e = .pluginsDirectoryNotFound := by
  cases hr : w.registryContentFolder with
  | none =>
    simp only [locate_target_specific_windows, hr] at h
    injection h with h
    exact Or.inl h.symm
  | some v =>
    simp only [locate_target_specific_windows, hr] at h
    split at h
    · injection h with h
      exact Or.inr (Or.inl h.symm)
    · split at h
      next e' heq =>
        injection h with h
        subst h
        exact Or.inr (Or.inr (locate_plugins_on_windows_error w _ heq))
      · exact Except.noConfusion h

/-- Error classification of the macOS Directory Interpreter: only the
documents-directory lookup can fail. -/
theorem locate_from_directory_macos_error (w : World) (root : Path)
    (e : Error) (h : locate_from_directory_macos w root = .error e) :
    e = .documentsDirectoryNotFound := by
  cases hd : w.documentDir with
  | none =>
    simp only [locate_from_directory_macos, hd] at h
    injection h with h
    exact h.symm
  | some docs =>
    simp only [locate_from_directory_macos, hd] at h
    exact Except.noConfusion h

/-- Error classification of the WSL-bridge locator. -/
theorem locate_target_specific_other_error (w : World) (e : Error)
    (h : locate_target_specific_other w = .error e) :
    e = .platformNotSupported ∨ e = .pluginsDirectoryNotFound ∨
      e = .notInstalled := by
  cases hw : is_wsl w with
  | false =>
    simp only [locate_target_specific_other, hw, Bool.false_eq_true,
      if_false] at h
    injection h with h
    exact Or.inl h.symm
  | true =>
    cases hu : w.usernameOutput with
    | none =>
      simp only [locate_target_specific_other, hw, if_true, hu] at h
      injection h with h
      exact Or.inl h.symm
    | some u =>
      simp only [locate_target_specific_other, hw, if_true, hu] at h
      rcases locate_from_windows_directory_error w _ e h with h' | h'
      · exact Or.inr (Or.inl h')
      · exact Or.inr (Or.inr h')

/-- Error classification of the non-Windows non-macOS Directory
Interpreter. -/
theorem locate_from_directory_other_error (w : World) (root : Path)
    (e : Error) (h : locate_from_directory_other w root = .error e) :
    e = .platformNotSupported ∨ e = .pluginsDirectoryNotFound ∨
      e = .notInstalled := by
  cases hw : is_wsl w with
  | false =>
    simp only [locate_from_directory_other, hw, Bool.false_eq_true,
      if_false] at h
    injection h with h
    exact Or.inl h.symm
  | true =>
    simp only [locate_from_directory_other, hw, if_true] at h
    rcases locate_from_windows_directory_error w _ e h with h' | h'
    · exact Or.inr (Or.inl h')
    · exact Or.inr (Or.inr h')

/-- Error classification of the Windows `locate()`. -/
theorem locate_windows_error (w : World) (e : Error)
    (h : locate_windows w = .error e) :
    e = .registryError ∨ e = .malformedRegistry ∨
      e = .pluginsDirectoryNotFound ∨ e = .notInstalled := by
  cases hv : w.envVar with
  | none =>
    simp only [locate_windows, locate_from_env, hv] at h
    rcases locate_target_specific_windows_error w e h with h' | h' | h'
    · exact Or.inl h'
    · exact Or.inr (Or.inl h')
    · exact Or.inr (Or.inr (Or.inl h'))
  | some o =>
    cases o with
    | none =>
      simp only [locate_windows, locate_from_env, hv] at h
      rcases locate_target_specific_windows_error w e h with h' | h' | h'
      · exact Or.inl h'
      · exact Or.inr (Or.inl h')
      · exact Or.inr (Or.inr (Or.inl h'))
    | some s =>
      simp only [locate_windows, locate_from_env, hv,
        locate_from_directory_windows] at h
      rcases locate_from_windows_directory_error w _ e h with h' | h'
      · exact Or.inr (Or.inr (Or.inl h'))
      · exact Or.inr (Or.inr (Or.inr h'))

/-- Error classification of the macOS `locate()`. -/
theorem locate_macos_error (w : World) (e : Error)
    (h : locate_macos w = .error e) :
    e = .documentsDirectoryNotFound := by
  cases hv : w.envVar with
  | none =>
    simp only [locate_macos, locate_from_env, hv,
      locate_target_specific_macos] at h
    exact locate_from_directory_macos_error w _ e h
  | some o =>
    cases o with
    | none =>
      simp only [locate_macos, locate_from_env, hv,
        locate_target_specific_macos] at h
      exact locate_from_directory_macos_error w _ e h
    | some s =>
      simp only [locate_macos, locate_from_env, hv] at h
      exact locate_from_directory_macos_error w _ e h

/-- Error classification of the non-Windows non-macOS `locate()`. -/
theorem locate_other_error (w : World) (e : Error)
    (h : locate_other w = .error e) :
    e = .platformNotSupported ∨ e = .pluginsDirectoryNotFound ∨
      e = .notInstalled := by
  cases hv : w.envVar with
  | none =>
    simp only [locate_other, locate_from_env, hv] at h
    exact locate_target_specific_other_error w e h
  | some o =>
    cases o with
    | none =>
      simp only [locate_other, locate_from_env, hv] at h
      exact locate_target_specific_other_error w e h
    | some s =>
      simp only [locate_other, locate_from_env, hv] at h
      exact locate_from_directory_other_error w _ e h

/-! ## Concrete worlds used by witnesses and counterexamples -/

/-- A world with nothing set: variable unset, empty filesystem, no
registry, no user directories, both external commands failing. -/
def emptyWorld : World :=
  { envVar := none
    isDir := fun _ => false
    isFile := fun _ => false
    readDir := fun _ => none
    homeDir := none
    documentDir := none
    registryContentFolder := none
    unameOutput := none
    usernameOutput := none }

/-! ## The claims -/

/-- C8: for any two calls to `locate()` made under identical
environment-variable state, filesystem state, and external-command
outputs (one `World` value captures all of these), the two results are
structurally identical, on every platform variant.  In the embedding a
`locate` call is a pure function of the `World`, which is exactly the
source's situation: `locate()` reads only the ambient state modelled in
`World` and keeps no mutable state of its own. -/
theorem claimC8_idempotent (w w' : World) (h : w = w') :
    locate_windows w = locate_windows w' ∧
    locate_macos w = locate_macos w' ∧
    locate_other w = locate_other w' := by
  subst h
  exact ⟨rfl, rfl, rfl⟩

/-- Witness for C8 at the concrete world `emptyWorld`. -/
theorem claimC8_witness :
    locate_windows emptyWorld = locate_windows emptyWorld ∧
    locate_macos emptyWorld = locate_macos emptyWorld ∧
    locate_other emptyWorld = locate_other emptyWorld :=
  claimC8_idempotent emptyWorld emptyWorld rfl

/-- C9: no operation ever returns `WSLDetectionError`: although the
kind is declared in the `Error` enum, every detection or helper-command
failure on the bridged variant is surfaced as `PlatformNotSupported`,
so on every platform variant `locate()`'s error, if any, is one of the
other kinds. -/
theorem claimC9_no_wsl_detection_error (w : World) (e : Error)
    (h : locate_windows w = .error e ∨ locate_macos w = .error e ∨
      locate_other w = .error e) :
    e ≠ .wslDetectionError := by
  rcases h with h | h | h
  · rcases locate_windows_error w e h with h' | h' | h' | h' <;>
      subst h' <;> decide
  · have h' := locate_macos_error w e h
    subst h'
    decide
  · rcases locate_other_error w e h with h' | h' | h' <;>
      subst h' <;> decide

/-- Witness for C9: `locate()` on `emptyWorld` (Windows variant) fails
with `RegistryError`, and the theorem shows that error is not
`WSLDetectionError`. -/
theorem claimC9_witness : Error.registryError ≠ Error.wslDetectionError :=
  claimC9_no_wsl_detection_error emptyWorld Error.registryError (Or.inl rfl)

/-- C10: on the Windows/WSL directory-interpretation path the
user-plugins directory is resolved before any installation-shape check:
if the home directory cannot be determined, resolution fails with
`PluginsDirectoryNotFound` even when the root is a valid direct
installation (its `content` subdirectory exists). -/
theorem claimC10_plugins_before_shape (w : World) (root : Path)
    (hhome : w.homeDir = none)
    (_hcontent : w.isDir (pjoin root "content") = true) :
    locate_from_windows_directory w root = .error .pluginsDirectoryNotFound := by
  simp only [locate_from_windows_directory, locate_plugins_on_windows, hhome]

/-- Witness for C10: a world whose filesystem contains every directory
(so the root is a valid direct installation) but whose home directory
is undetermined. -/
theorem claimC10_witness :
    locate_from_windows_directory
      { emptyWorld with isDir := fun _ => true } ["opt", "roblox"] =
      .error .pluginsDirectoryNotFound :=
  claimC10_plugins_before_shape
    { emptyWorld with isDir := fun _ => true } ["opt", "roblox"] rfl rfl

/-- Success shape of the Windows registry locator: content is a child
of the root (the registry value's parent is the root), application and
built-in plugins sit under the root, plugins under the home
directory. -/
theorem locate_target_specific_windows_ok (w : World) (d : RobloxStudio)
    (h : locate_target_specific_windows w = .ok d) :
    (∃ t, d.content = d.root ++ t) ∧
    d.application = pjoin d.root "RobloxStudioBeta.exe" ∧
    d.built_in_plugins = pjoin d.root "BuiltInPlugins" ∧
    ∃ home, w.homeDir = some home ∧
      d.plugins = home ++ ["AppData", "Local", "Roblox", "Plugins"] := by
  cases hr : w.registryContentFolder with
  | none =>
    simp only [locate_target_specific_windows, hr] at h
    exact Except.noConfusion h
  | some v =>
    simp only [locate_target_specific_windows, hr] at h
    split at h
    · exact Except.noConfusion h
    next root hpar =>
      cases hh : w.homeDir with
      | none =>
        simp only [locate_plugins_on_windows, hh] at h
        exact Except.noConfusion h
      | some home =>
        simp only [locate_plugins_on_windows, hh] at h
        injection h with h
        subst h
        obtain ⟨x, hx⟩ := parent_eq_some _ _ hpar
        exact ⟨⟨[x], hx⟩, rfl, rfl, home, rfl, rfl⟩

/-- Success shape of the macOS Directory Interpreter: everything under
the bundle root, plugins under the documents directory. -/
theorem locate_from_directory_macos_ok (w : World) (root : Path)
    (d : RobloxStudio) (h : locate_from_directory_macos w root = .ok d) :
    d.content = d.root ++ ["Contents", "Resources", "content"] ∧
    d.application = d.root ++ ["Contents", "MacOS", "RobloxStudio"] ∧
    d.built_in_plugins = d.root ++ ["Contents", "Resources", "BuiltInPlugins"] ∧
    ∃ docs, w.documentDir = some docs ∧
      d.plugins = docs ++ ["Roblox", "Plugins"] := by
  cases hd : w.documentDir with
  | none =>
    simp only [locate_from_directory_macos, hd] at h
    exact Except.noConfusion h
  | some docs =>
    simp only [locate_from_directory_macos, hd] at h
    injection h with h
    subst h
    refine ⟨?_, ?_, ?_, docs, rfl, ?_⟩ <;> simp [pjoin]

/-- Success shape of the WSL-bridge locator. -/
theorem locate_target_specific_other_ok (w : World) (d : RobloxStudio)
    (h : locate_target_specific_other w = .ok d) :
    d.content = pjoin d.root "content" ∧
    d.application = pjoin d.root "RobloxStudioBeta.exe" ∧
    d.built_in_plugins = pjoin d.root "BuiltInPlugins" ∧
    ∃ home, w.homeDir = some home ∧
      d.plugins = home ++ ["AppData", "Local", "Roblox", "Plugins"] := by
  cases hw : is_wsl w with
  | false =>
    simp only [locate_target_specific_other, hw, Bool.false_eq_true,
      if_false] at h
    exact Except.noConfusion h
  | true =>
    cases hu : w.usernameOutput with
    | none =>
      simp only [locate_target_specific_other, hw, if_true, hu] at h
      exact Except.noConfusion h
    | some u =>
      simp only [locate_target_specific_other, hw, if_true, hu] at h
      exact locate_from_windows_directory_ok w _ d h

/-- Success shape of the non-Windows non-macOS Directory Interpreter. -/
theorem locate_from_directory_other_ok (w : World) (root : Path)
    (d : RobloxStudio) (h : locate_from_directory_other w root = .ok d) :
    d.content = pjoin d.root "content" ∧
    d.application = pjoin d.root "RobloxStudioBeta.exe" ∧
    d.built_in_plugins = pjoin d.root "BuiltInPlugins" ∧
    ∃ home, w.homeDir = some home ∧
      d.plugins = home ++ ["AppData", "Local", "Roblox", "Plugins"] := by
  cases hw : is_wsl w with
  | false =>
    simp only [locate_from_directory_other, hw, Bool.false_eq_true,
      if_false] at h
    exact Except.noConfusion h
  | true =>
    simp only [locate_from_directory_other, hw, if_true] at h
    exact locate_from_windows_directory_ok w _ d h

/-- C6: every descriptor returned by any successful resolution path (on
any platform variant) has its contentPath, applicationPath and
builtInPluginsPath derived from the descriptor's own root — they extend
`d.root` and are never taken from a different discovered installation —
and its pluginsPath is taken from the user profile of the same
resolution (home directory on the Windows/WSL variants, documents
directory on macOS), not from any other installation. -/
theorem claimC6_internally_consistent (w : World) (d : RobloxStudio)
    (h : locate_windows w = .ok d ∨ locate_macos w = .ok d ∨
      locate_other w = .ok d) :
    (∃ t, d.content = d.root ++ t) ∧
    (∃ t, d.application = d.root ++ t) ∧
    (∃ t, d.built_in_plugins = d.root ++ t) ∧
    ((∃ home, w.homeDir = some home ∧
        d.plugins = home ++ ["AppData", "Local", "Roblox", "Plugins"]) ∨
      (∃ docs, w.documentDir = some docs ∧
        d.plugins = docs ++ ["Roblox", "Plugins"])) := by
  rcases h with h | h | h
  · cases hv : w.envVar with
    | none =>
      simp only [locate_windows, locate_from_env, hv] at h
      obtain ⟨h1, h2, h3, h4⟩ := locate_target_specific_windows_ok w d h
      exact ⟨h1, ⟨["RobloxStudioBeta.exe"], h2⟩, ⟨["BuiltInPlugins"], h3⟩,
        Or.inl h4⟩
    | some o =>
      cases o with
      | none =>
        simp only [locate_windows, locate_from_env, hv] at h
        obtain ⟨h1, h2, h3, h4⟩ := locate_target_specific_windows_ok w d h
        exact ⟨h1, ⟨["RobloxStudioBeta.exe"], h2⟩, ⟨["BuiltInPlugins"], h3⟩,
          Or.inl h4⟩
      | some s =>
        simp only [locate_windows, locate_from_env, hv,
          locate_from_directory_windows] at h
        obtain ⟨h1, h2, h3, h4⟩ := locate_from_windows_directory_ok w _ d h
        exact ⟨⟨["content"], h1⟩, ⟨["RobloxStudioBeta.exe"], h2⟩,
          ⟨["BuiltInPlugins"], h3⟩, Or.inl h4⟩
  · cases hv : w.envVar with
    | none =>
      simp only [locate_macos, locate_from_env, hv,
        locate_target_specific_macos] at h
      obtain ⟨h1, h2, h3, h4⟩ := locate_from_directory_macos_ok w _ d h
      exact ⟨⟨_, h1⟩, ⟨_, h2⟩, ⟨_, h3⟩, Or.inr h4⟩
    | some o =>
      cases o with
      | none =>
        simp only [locate_macos, locate_from_env, hv,
          locate_target_specific_macos] at h
        obtain ⟨h1, h2, h3, h4⟩ := locate_from_directory_macos_ok w _ d h
        exact ⟨⟨_, h1⟩, ⟨_, h2⟩, ⟨_, h3⟩, Or.inr h4⟩
      | some s =>
        simp only [locate_macos, locate_from_env, hv] at h
        obtain ⟨h1, h2, h3, h4⟩ := locate_from_directory_macos_ok w _ d h
        exact ⟨⟨_, h1⟩, ⟨_, h2⟩, ⟨_, h3⟩, Or.inr h4⟩
  · cases hv : w.envVar with
    | none =>
      simp only [locate_other, locate_from_env, hv] at h
      obtain ⟨h1, h2, h3, h4⟩ := locate_target_specific_other_ok w d h
      exact ⟨⟨["content"], h1⟩, ⟨["RobloxStudioBeta.exe"], h2⟩,
        ⟨["BuiltInPlugins"], h3⟩, Or.inl h4⟩
    | some o =>
      cases o with
      | none =>
        simp only [locate_other, locate_from_env, hv] at h
        obtain ⟨h1, h2, h3, h4⟩ := locate_target_specific_other_ok w d h
        exact ⟨⟨["content"], h1⟩, ⟨["RobloxStudioBeta.exe"], h2⟩,
          ⟨["BuiltInPlugins"], h3⟩, Or.inl h4⟩
      | some s =>
        simp only [locate_other, locate_from_env, hv] at h
        obtain ⟨h1, h2, h3, h4⟩ := locate_from_directory_other_ok w _ d h
        exact ⟨⟨["content"], h1⟩, ⟨["RobloxStudioBeta.exe"], h2⟩,
          ⟨["BuiltInPlugins"], h3⟩, Or.inl h4⟩

/-- A world in which native Windows discovery succeeds through the
registry: used by the C6 witness and the C2 counterexample. -/
def worldRegistry : World :=
  { emptyWorld with
    envVar := some none
    registryContentFolder := some "/install/content"
    homeDir := some ["home", "user"] }

/-- Witness for C6 at a concrete resolution: the registry path of
`worldRegistry` yields a descriptor rooted at `["install"]`. -/
theorem claimC6_witness :
    (∃ t, (["install", "content"] : Path) = ["install"] ++ t) ∧
    (∃ t, (["install", "RobloxStudioBeta.exe"] : Path) = ["install"] ++ t) ∧
    (∃ t, (["install", "BuiltInPlugins"] : Path) = ["install"] ++ t) ∧
    ((∃ home, worldRegistry.homeDir = some home ∧
        (["home", "user", "AppData", "Local", "Roblox", "Plugins"] : Path) =
          home ++ ["AppData", "Local", "Roblox", "Plugins"]) ∨
      (∃ docs, worldRegistry.documentDir = some docs ∧
        (["home", "user", "AppData", "Local", "Roblox", "Plugins"] : Path) =
          docs ++ ["Roblox", "Plugins"])) :=
  claimC6_internally_consistent worldRegistry
    { content := ["install", "content"]
      application := ["install", "RobloxStudioBeta.exe"]
      built_in_plugins := ["install", "BuiltInPlugins"]
      plugins := ["home", "user", "AppData", "Local", "Roblox", "Plugins"]
      root := ["install"] }
    (Or.inl rfl)

/-- C7: on the bridged (non-Windows, non-macOS) variant with no
override set, `locate()` fails with `PlatformNotSupported` whenever WSL
detection does not positively identify the bridged environment or the
username helper command fails; when detection and the username command
both succeed, the result is exactly the Directory Interpreter's verdict
on the constructed profile path
`/mnt/c/Users/<username>/AppData/Local/Roblox`. -/
theorem claimC7_bridged_failures (w : World) (henv : w.envVar = none) :
    (is_wsl w = false → locate_other w = .error .platformNotSupported) ∧
    (w.usernameOutput = none → locate_other w = .error .platformNotSupported) ∧
    (∀ u, w.usernameOutput = some u → is_wsl w = true →
      locate_other w = locate_from_windows_directory w
        (parsePath "/mnt/c/Users" ++
          [strTrim u, "AppData", "Local", "Roblox"])) := by
  refine ⟨fun hw => ?_, fun hu => ?_, fun u hu hw => ?_⟩
  · simp [locate_other, locate_from_env, henv, locate_target_specific_other, hw]
  · cases hw : is_wsl w <;>
      simp [locate_other, locate_from_env, henv, locate_target_specific_other,
        hw, hu]
  · simp [locate_other, locate_from_env, henv, locate_target_specific_other,
      hw, hu]

/-- A world detected as WSL whose username helper fails. -/
def worldWslNoUser : World :=
  { emptyWorld with unameOutput := some "5.15.90.1-microsoft-standard" }

/-- A world detected as WSL whose username helper answers `Alice`. -/
def worldWslUser : World :=
  { worldWslNoUser with
    usernameOutput := some "Alice"
    homeDir := some ["home"] }

/-- Witness for C7: the three branches at concrete worlds — not WSL,
WSL but no username, and WSL with username `Alice`. -/
theorem claimC7_witness :
    locate_other emptyWorld = .error .platformNotSupported ∧
    locate_other worldWslNoUser = .error .platformNotSupported ∧
    locate_other worldWslUser = locate_from_windows_directory worldWslUser
      (parsePath "/mnt/c/Users" ++
        [strTrim "Alice", "AppData", "Local", "Roblox"]) :=
  ⟨(claimC7_bridged_failures emptyWorld rfl).1 rfl,
    (claimC7_bridged_failures worldWslNoUser rfl).2.1 rfl,
    (claimC7_bridged_failures worldWslUser rfl).2.2 "Alice" rfl rfl⟩

/-- A world whose override variable is set to a value that is not valid
Unicode (`envVar = some none`, the `VarError::NotUnicode` case) and
whose registry lookup fails. -/
def worldEnvNotUnicode : World := { emptyWorld with envVar := some none }

/-- C1 counterexample: an environment state in which
`ROBLOX_STUDIO_PATH` IS set — to a value that is not valid Unicode, so
`env::var(..).ok()?` discards it — yet `locate()` invokes the
platform-native locator: the result is the native locator's verdict,
here `RegistryError`, an error that override-directory resolution can
never produce (`locate_from_windows_directory` only fails with
`PluginsDirectoryNotFound` or `NotInstalled`).  This contradicts the
claim that with the variable set, platform-native discovery never
runs. -/
theorem claimC1_counterexample :
    (worldEnvNotUnicode.envVar).isSome = true ∧
    locate_windows worldEnvNotUnicode =
      locate_target_specific_windows worldEnvNotUnicode ∧
    locate_windows worldEnvNotUnicode = .error .registryError :=
  ⟨rfl, rfl, rfl⟩

/-- C1 amended: if `ROBLOX_STUDIO_PATH` is set to a valid Unicode
value, `locate()` returns exactly the Directory Interpreter's verdict
on that value (success or typed failure) and never invokes the
platform-native locator; platform-native discovery runs when the
variable is absent OR when its value is not valid Unicode (the
`.ok()?` on `env::var` collapses both to the fallthrough case). -/
theorem claimC1_amended_override_precedence (w : World) :
    (∀ s, w.envVar = some (some s) →
      locate_windows w = locate_from_windows_directory w (parsePath s) ∧
      locate_macos w = locate_from_directory_macos w (parsePath s) ∧
      locate_other w = locate_from_directory_other w (parsePath s)) ∧
    (w.envVar = none ∨ w.envVar = some none →
      locate_windows w = locate_target_specific_windows w ∧
      locate_macos w = locate_target_specific_macos w ∧
      locate_other w = locate_target_specific_other w) := by
  constructor
  · intro s hs
    refine ⟨?_, ?_, ?_⟩ <;>
      simp [locate_windows, locate_macos, locate_other, locate_from_env, hs,
        locate_from_directory_windows]
  · rintro (hs | hs) <;> refine ⟨?_, ?_, ?_⟩ <;>
      simp [locate_windows, locate_macos, locate_other, locate_from_env, hs]

/-- C2 counterexample: the override variable is set to the only kind of
value this pipeline cannot interpret as a path — a non-Unicode one (for
Unicode values, `String::parse::<PathBuf>()` is infallible) — and
`locate()` neither fails with `EnvironmentVariableError` nor stops:
native discovery runs and succeeds through the registry. -/
theorem claimC2_counterexample :
    (worldRegistry.envVar).isSome = true ∧
    locate_windows worldRegistry = .ok
      { content := ["install", "content"]
        application := ["install", "RobloxStudioBeta.exe"]
        built_in_plugins := ["install", "BuiltInPlugins"]
        plugins := ["home", "user", "AppData", "Local", "Roblox", "Plugins"]
        root := ["install"] } :=
  ⟨rfl, rfl⟩

/-- C2 amended: `locate()` never returns `EnvironmentVariableError` on
any platform variant: a Unicode value always parses as a path
(`FromStr for PathBuf` has `Err = Infallible`, so the error branch at
lines 277-282 is dead code), and a non-Unicode value makes `env::var`
itself fail, upon which `locate()` silently falls through to
platform-native discovery rather than failing. -/
theorem claimC2_amended_no_env_error (w : World) :
    (∀ msg, locate_windows w ≠ .error (.environmentVariableError msg) ∧
      locate_macos w ≠ .error (.environmentVariableError msg) ∧
      locate_other w ≠ .error (.environmentVariableError msg)) ∧
    (w.envVar = some none →
      locate_windows w = locate_target_specific_windows w ∧
      locate_macos w = locate_target_specific_macos w ∧
      locate_other w = locate_target_specific_other w) := by
  constructor
  · intro msg
    refine ⟨fun h => ?_, fun h => ?_, fun h => ?_⟩
    · rcases locate_windows_error w _ h with h' | h' | h' | h' <;>
        exact Error.noConfusion h'
    · exact Error.noConfusion (locate_macos_error w _ h)
    · rcases locate_other_error w _ h with h' | h' | h' <;>
        exact Error.noConfusion h'
  · intro hs
    refine ⟨?_, ?_, ?_⟩ <;>
      simp [locate_windows, locate_macos, locate_other, locate_from_env, hs]

/-- A world with an empty filesystem but a resolvable documents
directory. -/
def worldDocsOnly : World :=
  { emptyWorld with documentDir := some ["Users", "u", "Documents"] }

/-- C3 counterexample: on the macOS variant — a platform variant that
accepts an override directory — a root whose `content` subdirectory
does not exist and whose `Versions` subdirectory does not exist either
(the filesystem is empty) is NOT rejected with `NotInstalled`: the
macOS Directory Interpreter performs no filesystem check at all and
succeeds. -/
theorem claimC3_counterexample :
    worldDocsOnly.isDir (pjoin ["tmp", "fake"] "content") = false ∧
    worldDocsOnly.isDir (pjoin ["tmp", "fake"] "Versions") = false ∧
    locate_from_directory_macos worldDocsOnly ["tmp", "fake"] = .ok
      { content := ["tmp", "fake", "Contents", "Resources", "content"]
        application := ["tmp", "fake", "Contents", "MacOS", "RobloxStudio"]
        built_in_plugins :=
          ["tmp", "fake", "Contents", "Resources", "BuiltInPlugins"]
        plugins := ["Users", "u", "Documents", "Roblox", "Plugins"]
        root := ["tmp", "fake"] } :=
  ⟨rfl, rfl, rfl⟩

/-- C3 amended: on the Windows/WSL Directory Interpreter (the variant
with a shape check), a root whose `content` subdirectory does not exist
and whose `Versions` subdirectory does not exist, is unreadable, or has
no child containing the executable, fails with `NotInstalled` —
provided the home directory resolves (otherwise
`PluginsDirectoryNotFound` preempts, see C10).  The macOS variant
performs no shape check and can only fail with
`DocumentsDirectoryNotFound`, never `NotInstalled`. -/
theorem claimC3_amended_not_installed (w : World) (root home : Path)
    (hhome : w.homeDir = some home)
    (hcontent : w.isDir (pjoin root "content") = false)
    (hvers : w.isDir (pjoin root "Versions") = false ∨
      w.readDir (pjoin root "Versions") = none ∨
      ∃ entries, w.readDir (pjoin root "Versions") = some entries ∧
        firstWithExe w entries = none) :
    locate_from_windows_directory w root = .error .notInstalled ∧
    ∀ r e, locate_from_directory_macos w r = .error e →
      e = .documentsDirectoryNotFound := by
  constructor
  · rcases hvers with hv | hv | ⟨entries, hrd, hfx⟩
    · simp [locate_from_windows_directory, locate_plugins_on_windows, hhome,
        hcontent, hv]
    · cases hvd : w.isDir (pjoin root "Versions") <;>
        simp [locate_from_windows_directory, locate_plugins_on_windows, hhome,
          hcontent, hv, hvd]
    · cases hvd : w.isDir (pjoin root "Versions") <;>
        simp [locate_from_windows_directory, locate_plugins_on_windows, hhome,
          hcontent, hvd, hrd, findStudioVersion_eq, hfx]
  · intro r e h
    exact locate_from_directory_macos_error w r e h

/-- A world with a home directory and an empty filesystem. -/
def worldHomeOnly : World := { emptyWorld with homeDir := some ["home"] }

/-- Witness for C3 (amended) at a concrete world: empty filesystem,
home directory present. -/
theorem claimC3_witness :
    locate_from_windows_directory worldHomeOnly ["opt", "roblox"] =
      .error .notInstalled ∧
    ∀ r e, locate_from_directory_macos worldHomeOnly r = .error e →
      e = .documentsDirectoryNotFound :=
  claimC3_amended_not_installed worldHomeOnly ["opt", "roblox"] ["home"]
    rfl rfl (Or.inl rfl)

/-- C4: when `root/content` is not a directory but `root/Versions` is a
directory whose enumeration succeeds and has at least one child with
the executable, the Directory Interpreter returns the descriptor of the
FIRST such child in enumeration order (not the container): root,
content, application and built-in plugins are all derived from that
child. -/
theorem claimC4_first_versions_child (w : World) (root home c : Path)
    (entries : List Path)
    (hhome : w.homeDir = some home)
    (hcontent : w.isDir (pjoin root "content") = false)
    (hvdir : w.isDir (pjoin root "Versions") = true)
    (hread : w.readDir (pjoin root "Versions") = some entries)
    (hfirst : firstWithExe w entries = some c) :
    locate_from_windows_directory w root = .ok
      { content := pjoin c "content"
        application := pjoin c "RobloxStudioBeta.exe"
        built_in_plugins := pjoin c "BuiltInPlugins"
        plugins := home ++ ["AppData", "Local", "Roblox", "Plugins"]
        root := c } := by
  simp [locate_from_windows_directory, locate_plugins_on_windows, hhome,
    hcontent, hvdir, hread, findStudioVersion_eq, hfirst]

/-- A versions-container world: `c:/Roblox/Versions` holds two
children, of which only the second contains the executable. -/
def worldVersions : World :=
  { emptyWorld with
    homeDir := some ["home", "user"]
    isDir := fun p => p == ["c", "Roblox", "Versions"]
    readDir := fun p =>
      if p == ["c", "Roblox", "Versions"] then
        some [["c", "Roblox", "Versions", "v0"],
          ["c", "Roblox", "Versions", "v1"]]
      else none
    isFile := fun p =>
      p == ["c", "Roblox", "Versions", "v1", "RobloxStudioBeta.exe"] }

/-- Witness for C4: the first child lacking the executable is skipped
and the descriptor is rooted at the second child, not the container. -/
theorem claimC4_witness :
    locate_from_windows_directory worldVersions ["c", "Roblox"] = .ok
      { content := ["c", "Roblox", "Versions", "v1", "content"]
        application := ["c", "Roblox", "Versions", "v1", "RobloxStudioBeta.exe"]
        built_in_plugins := ["c", "Roblox", "Versions", "v1", "BuiltInPlugins"]
        plugins := ["home", "user", "AppData", "Local", "Roblox", "Plugins"]
        root := ["c", "Roblox", "Versions", "v1"] } :=
  claimC4_first_versions_child worldVersions ["c", "Roblox"] ["home", "user"]
    ["c", "Roblox", "Versions", "v1"]
    [["c", "Roblox", "Versions", "v0"], ["c", "Roblox", "Versions", "v1"]]
    rfl rfl rfl rfl rfl

/-- C5: for a valid (Unicode) override path whose directory is
direct-installation-shaped (its `content` subdirectory exists),
`locate()` on the Windows variant — and on the WSL variant when
bridging is detected — succeeds with a descriptor whose contentPath is
`root/content` and whose applicationPath is the fixed executable name
`RobloxStudioBeta.exe` directly under the override root. -/
theorem claimC5_direct_override (w : World) (s : String) (home : Path)
    (henv : w.envVar = some (some s))
    (hhome : w.homeDir = some home)
    (hcontent : w.isDir (pjoin (parsePath s) "content") = true) :
    locate_windows w = .ok
      { content := pjoin (parsePath s) "content"
        application := pjoin (parsePath s) "RobloxStudioBeta.exe"
        built_in_plugins := pjoin (parsePath s) "BuiltInPlugins"
        plugins := home ++ ["AppData", "Local", "Roblox", "Plugins"]
        root := parsePath s } ∧
    (is_wsl w = true → locate_other w = .ok
      { content := pjoin (parsePath s) "content"
        application := pjoin (parsePath s) "RobloxStudioBeta.exe"
        built_in_plugins := pjoin (parsePath s) "BuiltInPlugins"
        plugins := home ++ ["AppData", "Local", "Roblox", "Plugins"]
        root := parsePath s }) := by
  constructor
  · simp [locate_windows, locate_from_env, henv, locate_from_directory_windows,
      locate_from_windows_directory, locate_plugins_on_windows, hhome, hcontent]
  · intro hwsl
    simp [locate_other, locate_from_env, henv, locate_from_directory_other,
      hwsl, locate_from_windows_directory, locate_plugins_on_windows, hhome,
      hcontent]

/-- The spec's scenario world: override `/tmp/fakestudio` with a
`content` subdirectory. -/
def worldFakestudio : World :=
  { emptyWorld with
    envVar := some (some "/tmp/fakestudio")
    isDir := fun p => p == ["tmp", "fakestudio", "content"]
    homeDir := some ["home", "user"] }

/-- Witness for C5 at the spec's scenario: override `/tmp/fakestudio`
containing `content/` resolves to `applicationPath =
/tmp/fakestudio/RobloxStudioBeta.exe`. -/
theorem claimC5_witness :
    locate_windows worldFakestudio = .ok
      { content := ["tmp", "fakestudio", "content"]
        application := ["tmp", "fakestudio", "RobloxStudioBeta.exe"]
        built_in_plugins := ["tmp", "fakestudio", "BuiltInPlugins"]
        plugins := ["home", "user", "AppData", "Local", "Roblox", "Plugins"]
        root := ["tmp", "fakestudio"] } :=
  (claimC5_direct_override worldFakestudio "/tmp/fakestudio" ["home", "user"]
    rfl rfl rfl).1

end RobloxInstall
